import Mathlib

/-!
Verification of the vibe-check scan-aggregation and scoring engine.

The definitions below are a shallow embedding of the TypeScript sources:

* `packages/vibe-cli/src/utils/report-generator.ts` — `ReportGenerator`
  (`calculateScores`, `getGrade`, the AI-penalty block of `generateReport`);
* `packages/vibe-cli/src/utils/scan-parser.ts` — `ScanParser`
  (`parseSemgrepResults`, `parseGitleaksResults`, `parseOsvResults`,
  `parseTrivyResults`);
* the ledger-building blocks of the `comprehensiveVibe` and `scanAll`
  commands.

Numbers: the JS code manipulates only small integers plus the two literals
`0.8` / `0.6` and one division (`successfulTools / totalTools * 100`).  We
model scores as `Int`; the fractional comparisons are carried out exactly
by cross-multiplication (`x / t * 100 >= c` becomes `c * t <= x * 100`,
guarded by `t ≠ 0` because the IEEE NaN produced by `0 / 0` makes every
`>=` comparison false), and `Math.round (m * 0.8)` becomes the exact
`floor (8 * m / 10 + 1/2)`.  At every comparison the code reaches, the
double computation is exact (`10 * 0.8 = 8`, `10 * 0.6 = 6`,
`25 * 0.8 = 20`, `25 * 0.6 = 15`, `20 * 0.8 = 16`, `20 * 0.6 = 12`, and
`s / t * 100` never lands within an ulp of a threshold for the ledger
sizes involved), so the exact model agrees with the floating-point source.
-/

/-- Status of one tool run, `"SUCCESS" | "FAILED" | "SKIPPED"` in the source. -/
inductive ScanStatus where
  | SUCCESS
  | FAILED
  | SKIPPED
deriving DecidableEq, Repr

/-- One entry of the scan ledger (`ScanResult` in `report-generator.ts`);
`version`, `executionTime` and `additionalData` are dropped because no claim
mentions them. -/
structure ScanResult where
  tool : String
  status : ScanStatus
  findings : Nat
  error : Option String := none
deriving DecidableEq, Repr

/-- One category score cell `{ score, max, status }`. -/
structure Category where
  score : Int
  max : Int
  status : String
deriving DecidableEq, Repr

/-- The five fixed categories of `calculateScores`. -/
structure CategoryScores where
  staticAnalysis : Category
  secretDetection : Category
  dependencySecurity : Category
  webSecurity : Category
  toolCoverage : Category
deriving DecidableEq, Repr

/-- Initial category table of `calculateScores` (lines 179-185). -/
def initCategories : CategoryScores :=
  { staticAnalysis := ⟨0, 25, "FAILED"⟩
    secretDetection := ⟨0, 20, "FAILED"⟩
    dependencySecurity := ⟨0, 25, "FAILED"⟩
    webSecurity := ⟨0, 20, "FAILED"⟩
    toolCoverage := ⟨0, 10, "FAILED"⟩ }

/-- The `switch (result.tool)` taken for each `SUCCESS` outcome
(report-generator.ts lines 194-214). -/
def applySuccess (c : CategoryScores) (tool : String) : CategoryScores :=
  if tool = "semgrep" then
    { c with staticAnalysis :=
        { c.staticAnalysis with score := c.staticAnalysis.max, status := "EXCELLENT" } }
  else if tool = "gitleaks" then
    { c with secretDetection :=
        { c.secretDetection with score := c.secretDetection.max, status := "EXCELLENT" } }
  else if tool = "trivy" then
    { c with dependencySecurity :=
        { c.dependencySecurity with score := c.dependencySecurity.score + 12 } }
  else if tool = "osv-scanner" then
    { c with dependencySecurity :=
        { c.dependencySecurity with score := c.dependencySecurity.score + 13 } }
  else if tool = "docker" ∨ tool = "zap" then
    { c with webSecurity :=
        { c.webSecurity with score := c.webSecurity.max, status := "EXCELLENT" } }
  else c

/-- JavaScript `Math.round (m * (t / 10))` for integers `m`, `t`, computed
exactly: `floor (m * t / 10 + 1/2)` (JS `Math.round` rounds half toward
positive infinity, i.e. `floor (x + 1/2)`). -/
def jsRoundTenths (m t : Int) : Int :=
  Int.fdiv (2 * m * t + 10) 20

/-- The source comparison `coveragePercentage >= c` where
`coveragePercentage = (successfulTools / totalTools) * 100`; compared
exactly by cross-multiplication.  An empty ledger gives `0 / 0 = NaN`, on
which every `>=` is false — hence the `totalTools ≠ 0` guard. -/
def covAtLeast (successfulTools totalTools c : Nat) : Bool :=
  decide (totalTools ≠ 0) && decide (c * totalTools ≤ successfulTools * 100)

/-- Status recomputation of the final clamp pass (lines 242-250): the
source compares `score >= max * 0.8` and `score >= max * 0.6`; exact
cross-multiplied form. -/
def statusOfRatio (s m : Int) : String :=
  if s ≥ m then "EXCELLENT"
  else if 8 * m ≤ 10 * s then "GOOD"
  else if 6 * m ≤ 10 * s then "FAIR"
  else "FAILED"

/-- The per-category body of the `Object.entries(categories).forEach` clamp
pass (lines 239-251): cap at max, then recompute status. -/
def clampCategory (c : Category) : Category :=
  let s := min c.score c.max
  { score := s, max := c.max, status := statusOfRatio s c.max }

/-- Sum of the five category scores (the `reduce` on line 255). -/
def sumScores (c : CategoryScores) : Int :=
  c.staticAnalysis.score + c.secretDetection.score + c.dependencySecurity.score
    + c.webSecurity.score + c.toolCoverage.score

/-- Result of `calculateScores`: the category table and the overall total. -/
structure ScoreResult where
  categories : CategoryScores
  total : Int
deriving DecidableEq, Repr

/-- The body of the `for (const result of scanResults)` loop as a fold step
(lines 190-216): only `SUCCESS` outcomes attribute points. -/
def scanStep (c : CategoryScores) (r : ScanResult) : CategoryScores :=
  if r.status = ScanStatus.SUCCESS then applySuccess c r.tool else c

/-- The tool-coverage step function (lines 218-236) applied to the current
`toolCoverage` category. -/
def coverageCategory (tc : Category) (successfulTools totalTools : Nat) : Category :=
  if covAtLeast successfulTools totalTools 80 then
    { tc with score := tc.max, status := "EXCELLENT" }
  else if covAtLeast successfulTools totalTools 60 then
    { tc with score := jsRoundTenths tc.max 8, status := "GOOD" }
  else if covAtLeast successfulTools totalTools 40 then
    { tc with score := jsRoundTenths tc.max 6, status := "FAIR" }
  else
    { tc with score := 0, status := "FAILED" }

/-- Model of `ReportGenerator.calculateScores` (report-generator.ts lines 178-259).
The source accumulates `successfulTools` inside the same loop that attributes
category points; counting with `countP` over the same list is equivalent. -/
def calculateScores (scanResults : List ScanResult) : ScoreResult :=
  let successfulTools := scanResults.countP (fun r => decide (r.status = ScanStatus.SUCCESS))
  let totalTools := scanResults.length
  let cats1 := scanResults.foldl scanStep initCategories
  let cats2 := { cats1 with
    toolCoverage := coverageCategory cats1.toolCoverage successfulTools totalTools }
  let cats3 : CategoryScores :=
    { staticAnalysis := clampCategory cats2.staticAnalysis
      secretDetection := clampCategory cats2.secretDetection
      dependencySecurity := clampCategory cats2.dependencySecurity
      webSecurity := clampCategory cats2.webSecurity
      toolCoverage := clampCategory cats2.toolCoverage }
  let total := min 100 (sumScores cats3)
  { categories := cats3, total := total }

/-- Model of `ReportGenerator.getGrade` (lines 261-267). -/
def getGrade (score : Int) : String :=
  if score ≥ 90 then "Excellent"
  else if score ≥ 80 then "Good"
  else if score ≥ 70 then "Fair"
  else if score ≥ 60 then "Poor"
  else "Critical"

/-- An AI priority level `P0 | P1 | P2`. -/
inductive PriorityLevel where
  | P0
  | P1
  | P2
deriving DecidableEq, Repr

/-- The `switch (priority.level)` body of the penalty accumulation
(report-generator.ts lines 118-128). -/
def penaltyStep (acc : Int) (p : PriorityLevel) : Int :=
  match p with
  | PriorityLevel.P0 => acc + 15
  | PriorityLevel.P1 => acc + 10
  | PriorityLevel.P2 => acc + 5

/-- The `aiPenalty` accumulated over `aiAnalysis.priorities.forEach`
(report-generator.ts lines 116-129). -/
def aiPenalty (ps : List PriorityLevel) : Int :=
  ps.foldl penaltyStep 0

/-- The `overallScore` record of a `SecurityReport`. -/
structure OverallScore where
  total : Int
  maxPossible : Int
  grade : String
  status : String
deriving DecidableEq, Repr

/-- The score-relevant part of a `SecurityReport`. -/
structure Report where
  overallScore : OverallScore
  categoryScores : CategoryScores
  tools : List ScanResult
deriving DecidableEq, Repr

/-- The score pipeline of `ReportGenerator.generateReport` (lines 103,
115-131, 141-148): base scores, then — when an AI analysis with its priority
list is available — `scores.total = Math.max(scores.total - aiPenalty, 0)`,
then grade and PASSED/FAILED from the (possibly penalized) total.
`aiAnalysis = none` models `parseAiAnalysis` returning `undefined`. -/
def generateReport (scanResults : List ScanResult)
    (aiAnalysis : Option (List PriorityLevel)) : Report :=
  let scores := calculateScores scanResults
  let total :=
    match aiAnalysis with
    | none => scores.total
    | some ps => max (scores.total - aiPenalty ps) 0
  { overallScore :=
      { total := total
        maxPossible := 100
        grade := getGrade total
        status := if total ≥ 70 then "PASSED" else "FAILED" }
    categoryScores := scores.categories
    tools := scanResults }

/-! ## JSON values and the JavaScript evaluation primitives used by
`ScanParser` (scan-parser.ts).

A raw artifact is `FileState.absent` (the `fs.existsSync` check fails),
`FileState.invalid` (the file exists but `JSON.parse` throws), or
`FileState.json j` (the parsed JSON value).  `Except Unit` models a thrown
`TypeError`: every parser wraps its body in `try / catch` and returns the
zero tally from the catch. -/

/-- A parsed JSON value. -/
inductive Json where
  | null
  | bool (b : Bool)
  | num (n : Int)
  | str (s : String)
  | arr (elems : List Json)
  | obj (fields : List (String × Json))

/-- JavaScript truthiness of a JSON value (`undefined` is represented as
`Option.none` at the access sites, never as a `Json`). -/
def Json.isFalsy : Json → Bool
  | .null => true
  | .bool b => !b
  | .num n => n == 0
  | .str s => s == ""
  | _ => false

/-- Plain property read `j.k` on a non-null value: object lookup (last
duplicate key wins, as in `JSON.parse`), `undefined` on primitives. -/
def jsGetNN : Json → String → Option Json
  | .obj fields, k => fields.reverse.lookup k
  | _, _ => none

/-- Plain property read `j.k`: throws a `TypeError` on `null`. -/
def jsGet : Json → String → Except Unit (Option Json)
  | .null, _ => .error ()
  | j, k => .ok (jsGetNN j k)

/-- Optional-chained property read `o?.k`: short-circuits to `undefined`
on `undefined`/`null`, otherwise a plain (non-throwing) read. -/
def optGet (o : Option Json) (k : String) : Option Json :=
  match o with
  | none => none
  | some .null => none
  | some j => jsGetNN j k

/-- Element read `j[i]` on a non-null value: array element, string
character, object key `"i"`, otherwise `undefined`. -/
def jsIndexNN : Json → Nat → Option Json
  | .arr xs, i => xs.get? i
  | .str s, i => (s.toList.get? i).map (fun c => Json.str (String.singleton c))
  | .obj fields, i => fields.reverse.lookup (toString i)
  | _, _ => none

/-- Optional-chained element read `o?.[i]`. -/
def optIndex (o : Option Json) (i : Nat) : Option Json :=
  match o with
  | none => none
  | some .null => none
  | some j => jsIndexNN j i

/-- Lowercasing of a string, character by character (the severity and
level labels involved are ASCII, where JS `toLowerCase` agrees with
`Char.toLower`). -/
def jsStrToLower (s : String) : String :=
  String.mk (s.data.map Char.toLower)

/-- The call `o?.toLowerCase()`: `undefined` short-circuits, a string is
lowercased, any other receiver throws (`toLowerCase` is `undefined` on it). -/
def jsToLowerCase : Option Json → Except Unit (Option String)
  | none => .ok none
  | some .null => .ok none
  | some (.str s) => .ok (some (jsStrToLower s))
  | some _ => .error ()

/-- Defaulting `x || []` as applied to a property read: `undefined` or any falsy value
is replaced by the empty array. -/
def jsOrEmptyArr : Option Json → Json
  | none => .arr []
  | some v => if v.isFalsy then .arr [] else v

/-- Iteration `for (const x of j)`: arrays and strings are iterable, anything else
throws a `TypeError`. -/
def jsIterate : Json → Except Unit (List Json)
  | .arr xs => .ok xs
  | .str s => .ok (s.toList.map (fun c => Json.str (String.singleton c)))
  | _ => .error ()

/-- Mapping of a fallible extraction over a list, short-circuiting on the
first thrown error (the behaviour of the source's `for` loops, whose body
may throw out of the enclosing `try`). -/
def mapExcept (f : α → Except Unit β) : List α → Except Unit (List β)
  | [] => .ok []
  | x :: xs => do
    let y ← f x
    let ys ← mapExcept f xs
    pure (y :: ys)

/-- A normalized finding tally (`ParsedFindings` in scan-parser.ts). -/
structure ParsedFindings where
  total : Nat
  critical : Nat
  high : Nat
  medium : Nat
  low : Nat
  info : Nat
deriving DecidableEq, Repr

/-- The all-zero tally every parser falls back to. -/
def zeroTally : ParsedFindings := ⟨0, 0, 0, 0, 0, 0⟩

/-- State of one raw artifact file. -/
inductive FileState where
  | absent
  | invalid
  | json (j : Json)

/-- Extraction `result.extra?.severity?.toLowerCase()` (scan-parser.ts line 52). -/
def semgrepSeverity (result : Json) : Except Unit (Option String) := do
  let extra ← jsGet result "extra"
  jsToLowerCase (optGet extra "severity")

/-- The `switch (severity)` of `parseSemgrepResults` (lines 53-70). -/
def bumpSemgrep (t : ParsedFindings) (sev : Option String) : ParsedFindings :=
  match sev with
  | some "error" => { t with critical := t.critical + 1 }
  | some "critical" => { t with critical := t.critical + 1 }
  | some "warning" => { t with high := t.high + 1 }
  | some "high" => { t with high := t.high + 1 }
  | some "medium" => { t with medium := t.medium + 1 }
  | some "low" => { t with low := t.low + 1 }
  | _ => { t with info := t.info + 1 }

/-- The severity-extraction pipeline of `parseSemgrepResults`:
`data.results || []`, iterate, and read each entry's severity. -/
def semgrepSevs (data : Json) : Except Unit (List (Option String)) := do
  let resultsField ← jsGet data "results"
  let results ← jsIterate (jsOrEmptyArr resultsField)
  mapExcept semgrepSeverity results

/-- Model of `ScanParser.parseSemgrepResults` (scan-parser.ts lines 34-85). -/
def parseSemgrepResults : FileState → ParsedFindings
  | .absent => zeroTally
  | .invalid => zeroTally
  | .json data =>
    match semgrepSevs data with
    | .error _ => zeroTally
    | .ok sevs => { sevs.foldl bumpSemgrep zeroTally with total := sevs.length }

/-- Model of `ScanParser.parseGitleaksResults` (scan-parser.ts lines 87-111):
`Array.isArray(data) ? data : []`, every entry counted as high. -/
def parseGitleaksResults : FileState → ParsedFindings
  | .absent => zeroTally
  | .invalid => zeroTally
  | .json data =>
    let results : List Json := match data with | .arr xs => xs | _ => []
    { total := results.length, critical := 0, high := results.length
      medium := 0, low := 0, info := 0 }

/-- Extraction `data.results?.[0]?.packages?.[0]?.vulnerabilities || []`
(scan-parser.ts lines 122-123). -/
def osvVulns (data : Json) : Except Unit (List Json) := do
  let results ← jsGet data "results"
  jsIterate (jsOrEmptyArr
    (optGet (optIndex (optGet (optIndex results 0) "packages") 0) "vulnerabilities"))

/-- Extraction `vuln.severity?.[0]?.severity?.toLowerCase()` (scan-parser.ts line 132). -/
def osvSeverity (vuln : Json) : Except Unit (Option String) := do
  let sev ← jsGet vuln "severity"
  jsToLowerCase (optGet (optIndex sev 0) "severity")

/-- The `switch (severity)` of `parseOsvResults` (lines 133-148). -/
def bumpOsv (t : ParsedFindings) (sev : Option String) : ParsedFindings :=
  match sev with
  | some "critical" => { t with critical := t.critical + 1 }
  | some "high" => { t with high := t.high + 1 }
  | some "medium" => { t with medium := t.medium + 1 }
  | some "low" => { t with low := t.low + 1 }
  | _ => { t with info := t.info + 1 }

/-- The severity-extraction pipeline of `parseOsvResults`. -/
def osvSevs (data : Json) : Except Unit (List (Option String)) := do
  let vulns ← osvVulns data
  mapExcept osvSeverity vulns

/-- Model of `ScanParser.parseOsvResults` (scan-parser.ts lines 113-163). -/
def parseOsvResults : FileState → ParsedFindings
  | .absent => zeroTally
  | .invalid => zeroTally
  | .json data =>
    match osvSevs data with
    | .error _ => zeroTally
    | .ok sevs => { sevs.foldl bumpOsv zeroTally with total := sevs.length }

/-- Extraction `data.runs?.[0]?.results || []` (scan-parser.ts line 174). -/
def trivyResults (data : Json) : Except Unit (List Json) := do
  let runs ← jsGet data "runs"
  jsIterate (jsOrEmptyArr (optGet (optIndex runs 0) "results"))

/-- Extraction `result.level?.toLowerCase()` (scan-parser.ts line 183). -/
def trivyLevel (result : Json) : Except Unit (Option String) := do
  let lvl ← jsGet result "level"
  jsToLowerCase lvl

/-- The `switch (level)` of `parseTrivyResults` (lines 184-199). -/
def bumpTrivy (t : ParsedFindings) (lvl : Option String) : ParsedFindings :=
  match lvl with
  | some "error" => { t with critical := t.critical + 1 }
  | some "warning" => { t with high := t.high + 1 }
  | some "note" => { t with medium := t.medium + 1 }
  | some "info" => { t with info := t.info + 1 }
  | _ => { t with low := t.low + 1 }

/-- The level-extraction pipeline of `parseTrivyResults`. -/
def trivyLevels (data : Json) : Except Unit (List (Option String)) := do
  let results ← trivyResults data
  mapExcept trivyLevel results

/-- Model of `ScanParser.parseTrivyResults` (scan-parser.ts lines 165-214). -/
def parseTrivyResults : FileState → ParsedFindings
  | .absent => zeroTally
  | .invalid => zeroTally
  | .json data =>
    match trivyLevels data with
    | .error _ => zeroTally
    | .ok lvls => { lvls.foldl bumpTrivy zeroTally with total := lvls.length }

/-! ## Ledger construction of the two orchestration commands.

`comprehensiveVibe` (the default command) and `scanAll` (`vibe scan`) build
the scan ledger by pushing outcomes as each scan step finishes.  The
builders below record, for each step, exactly what the corresponding
`try / catch` (or `if (config.app?.url)`) block pushes.  The flags say
whether each awaited scan step succeeded; the `Nat` arguments are the
finding totals the parsers returned in the success branches and the
`String` arguments the stringified errors of the catch branches. -/

/-- The scan-ledger construction of `comprehensiveVibe`: each catch block
only logs and sets `hasErrors` — nothing is pushed for a failed step — and
the web-security block pushes nothing when `config.app?.url` is missing or
when `scanZap` throws. -/
def comprehensiveLedger (semOk depOk secOk : Bool) (appUrl : Option String)
    (zapOk : Bool) (semN trivyN osvN gitN : Nat) : List ScanResult :=
  (if semOk then [{ tool := "semgrep", status := .SUCCESS, findings := semN }] else []) ++
  (if depOk then
    [{ tool := "trivy", status := .SUCCESS, findings := trivyN },
     { tool := "osv-scanner", status := .SUCCESS, findings := osvN }]
   else []) ++
  (if secOk then [{ tool := "gitleaks", status := .SUCCESS, findings := gitN }] else []) ++
  (match appUrl with
   | some _ =>
     if zapOk then [{ tool := "zap", status := .SUCCESS, findings := 0 }] else []
   | none => [])

/-- The scan-ledger construction of `scanAll`: failed steps push a FAILED
outcome carrying `String(error)`, except that the dependency catch block
pushes only `trivy` (no `osv-scanner` entry); with no app URL a
`zap SKIPPED` outcome is pushed. -/
def scanAllLedger (semOk depOk secOk : Bool) (appUrl : Option String)
    (zapOk : Bool) (semN trivyN osvN gitN : Nat)
    (semErr depErr secErr zapErr : String) : List ScanResult :=
  (if semOk then [{ tool := "semgrep", status := .SUCCESS, findings := semN }]
   else [{ tool := "semgrep", status := .FAILED, findings := 0, error := some semErr }]) ++
  (if depOk then
    [{ tool := "trivy", status := .SUCCESS, findings := trivyN },
     { tool := "osv-scanner", status := .SUCCESS, findings := osvN }]
   else [{ tool := "trivy", status := .FAILED, findings := 0, error := some depErr }]) ++
  (if secOk then [{ tool := "gitleaks", status := .SUCCESS, findings := gitN }]
   else [{ tool := "gitleaks", status := .FAILED, findings := 0, error := some secErr }]) ++
  (match appUrl with
   | some _ =>
     if zapOk then [{ tool := "zap", status := .SUCCESS, findings := 0 }]
     else [{ tool := "zap", status := .FAILED, findings := 0, error := some zapErr }]
   | none =>
     [{ tool := "zap", status := .SKIPPED, findings := 0,
        error := some "No app URL configured" }])

/-- One SARIF result entry carrying an optional `level` string. -/
def sarifResult (level : Option String) : Json :=
  match level with
  | some s => .obj [("level", .str s)]
  | none => .obj []

/-- A SARIF document `{ runs: [ { results: [...] } ] }` whose results carry
the given levels. -/
def sarifOf (levels : List (Option String)) : Json :=
  .obj [("runs", .arr [.obj [("results", .arr (levels.map sarifResult))]])]

/-! ## Auxiliary definitions used by the statements. -/

/-- Number of ledger entries for `tool` with status `SUCCESS`. -/
def countToolSuccess (tool : String) (l : List ScanResult) : Nat :=
  l.countP (fun r => decide (r.status = ScanStatus.SUCCESS ∧ r.tool = tool))

/-- A category cell with a non-negative score and the fixed maximum `m`. -/
def CatWF (c : Category) (m : Int) : Prop := 0 ≤ c.score ∧ c.max = m

/-- All five categories carry non-negative scores and the fixed maxima. -/
def CatsWF (c : CategoryScores) : Prop :=
  CatWF c.staticAnalysis 25 ∧ CatWF c.secretDetection 20
    ∧ CatWF c.dependencySecurity 25 ∧ CatWF c.webSecurity 20 ∧ CatWF c.toolCoverage 10

/-- A tally whose `total` matches the sum of its severity buckets. -/
def tallyWF (t : ParsedFindings) : Prop :=
  t.total = t.critical + t.high + t.medium + t.low + t.info

/-- Sum of the five severity buckets of a tally. -/
def bucketsSum (t : ParsedFindings) : Nat :=
  t.critical + t.high + t.medium + t.low + t.info

/-- The level of a SARIF entry after the `toLowerCase` call. -/
def sarifLower (o : Option String) : Option String := o.map jsStrToLower

/-- Scenario A ledger: all five tools successful with zero findings. -/
def ledgerScenarioA : List ScanResult :=
  [{ tool := "semgrep", status := .SUCCESS, findings := 0 },
   { tool := "gitleaks", status := .SUCCESS, findings := 0 },
   { tool := "trivy", status := .SUCCESS, findings := 0 },
   { tool := "osv-scanner", status := .SUCCESS, findings := 0 },
   { tool := "zap", status := .SUCCESS, findings := 0 }]

/-- Scenario B ledger: 2 of 5 tools successful (40% coverage). -/
def ledgerScenarioB : List ScanResult :=
  [{ tool := "semgrep", status := .FAILED, findings := 0, error := some "semgrep not installed" },
   { tool := "gitleaks", status := .SUCCESS, findings := 0 },
   { tool := "trivy", status := .SUCCESS, findings := 0 },
   { tool := "osv-scanner", status := .SKIPPED, findings := 0 },
   { tool := "zap", status := .SKIPPED, findings := 0 }]

/-- A ledger whose base overall score is 85: semgrep 25 + gitleaks 20 +
trivy 12 + zap 20 and 4 of 6 tools successful, so toolCoverage scores 8. -/
def ledgerBase85 : List ScanResult :=
  [{ tool := "semgrep", status := .SUCCESS, findings := 0 },
   { tool := "gitleaks", status := .SUCCESS, findings := 0 },
   { tool := "trivy", status := .SUCCESS, findings := 0 },
   { tool := "zap", status := .SUCCESS, findings := 0 },
   { tool := "osv-scanner", status := .FAILED, findings := 0, error := some "go too old" },
   { tool := "dredd", status := .FAILED, findings := 0, error := some "dredd not installed" }]

/-! ## Helper lemmas. -/

theorem initCategories_wf : CatsWF initCategories := by
  unfold CatsWF CatWF initCategories
  refine ⟨⟨?_, ?_⟩, ⟨?_, ?_⟩, ⟨?_, ?_⟩, ⟨?_, ?_⟩, ⟨?_, ?_⟩⟩ <;> rfl

theorem applySuccess_wf (c : CategoryScores) (tool : String) (h : CatsWF c) :
    CatsWF (applySuccess c tool) := by
  obtain ⟨⟨h1, h1m⟩, ⟨h2, h2m⟩, ⟨h3, h3m⟩, ⟨h4, h4m⟩, ⟨h5, h5m⟩⟩ := h
  unfold applySuccess
  split_ifs <;>
    refine ⟨⟨?_, ?_⟩, ⟨?_, ?_⟩, ⟨?_, ?_⟩, ⟨?_, ?_⟩, ⟨?_, ?_⟩⟩ <;>
    simp_all <;> omega

theorem scanStep_wf (c : CategoryScores) (r : ScanResult) (h : CatsWF c) :
    CatsWF (scanStep c r) := by
  unfold scanStep
  split_ifs with hs
  · exact applySuccess_wf c r.tool h
  · exact h

theorem scanFold_wf (l : List ScanResult) (c : CategoryScores) (h : CatsWF c) :
    CatsWF (l.foldl scanStep c) := by
  induction l generalizing c with
  | nil => exact h
  | cons r t ih => exact ih (scanStep c r) (scanStep_wf c r h)

theorem coverageCategory_wf (tc : Category) (s t : Nat) (h : CatWF tc 10) :
    CatWF (coverageCategory tc s t) 10 := by
  obtain ⟨h0, hm⟩ := h
  unfold coverageCategory
  split_ifs <;> refine ⟨?_, ?_⟩ <;> simp_all <;> decide

theorem clampCategory_bounds (c : Category) (m : Int) (h : CatWF c m) (hm : 0 ≤ m) :
    0 ≤ (clampCategory c).score ∧ (clampCategory c).score ≤ m
      ∧ (clampCategory c).max = m := by
  obtain ⟨h0, hmax⟩ := h
  unfold clampCategory
  simp only [hmax]
  refine ⟨?_, ?_, trivial⟩ <;> omega

theorem penaltyStep_ge (acc : Int) (p : PriorityLevel) : acc ≤ penaltyStep acc p := by
  cases p <;> simp [penaltyStep]

theorem aiPenalty_foldl_ge (ps : List PriorityLevel) (acc : Int) :
    acc ≤ ps.foldl penaltyStep acc := by
  induction ps generalizing acc with
  | nil => simp
  | cons p t ih => exact le_trans (penaltyStep_ge acc p) (ih (penaltyStep acc p))

theorem aiPenalty_nonneg (ps : List PriorityLevel) : 0 ≤ aiPenalty ps :=
  aiPenalty_foldl_ge ps 0

theorem applySuccess_dep (c : CategoryScores) (tool : String) :
    (applySuccess c tool).dependencySecurity.score
      = c.dependencySecurity.score
        + (if tool = "trivy" then 12 else if tool = "osv-scanner" then 13 else 0)
    ∧ (applySuccess c tool).dependencySecurity.max = c.dependencySecurity.max := by
  unfold applySuccess
  split_ifs with h1 h2 h3 h4 h5 <;> simp_all

theorem scanStep_dep (c : CategoryScores) (r : ScanResult) :
    (scanStep c r).dependencySecurity.score
      = c.dependencySecurity.score
        + (if r.status = ScanStatus.SUCCESS ∧ r.tool = "trivy" then 12
           else if r.status = ScanStatus.SUCCESS ∧ r.tool = "osv-scanner" then 13 else 0)
    ∧ (scanStep c r).dependencySecurity.max = c.dependencySecurity.max := by
  by_cases hs : r.status = ScanStatus.SUCCESS
  · constructor
    · simp only [scanStep, if_pos hs, (applySuccess_dep c r.tool).1]
      simp [hs]
    · simp only [scanStep, if_pos hs]
      exact (applySuccess_dep c r.tool).2
  · constructor
    · simp only [scanStep, if_neg hs]
      simp [hs]
    · simp only [scanStep, if_neg hs]

theorem scanFold_dep (l : List ScanResult) (c : CategoryScores) :
    ((l.foldl scanStep c).dependencySecurity.score
      = c.dependencySecurity.score
        + 12 * countToolSuccess "trivy" l + 13 * countToolSuccess "osv-scanner" l)
    ∧ (l.foldl scanStep c).dependencySecurity.max = c.dependencySecurity.max := by
  induction l generalizing c with
  | nil => simp [countToolSuccess]
  | cons r t ih =>
    rw [List.foldl_cons]
    refine ⟨?_, ?_⟩
    · rw [(ih (scanStep c r)).1, (scanStep_dep c r).1]
      simp only [countToolSuccess, List.countP_cons]
      split_ifs with h1 h2 <;> simp_all <;> ring
    · rw [(ih (scanStep c r)).2, (scanStep_dep c r).2]

theorem bumpSemgrep_sum (t : ParsedFindings) (s : Option String) :
    bucketsSum (bumpSemgrep t s) = bucketsSum t + 1 := by
  unfold bumpSemgrep bucketsSum
  split <;> simp <;> omega

theorem bumpOsv_sum (t : ParsedFindings) (s : Option String) :
    bucketsSum (bumpOsv t s) = bucketsSum t + 1 := by
  unfold bumpOsv bucketsSum
  split <;> simp <;> omega

theorem bumpTrivy_sum (t : ParsedFindings) (s : Option String) :
    bucketsSum (bumpTrivy t s) = bucketsSum t + 1 := by
  unfold bumpTrivy bucketsSum
  split <;> simp <;> omega

theorem foldl_bumpSemgrep_sum (l : List (Option String)) (t : ParsedFindings) :
    bucketsSum (l.foldl bumpSemgrep t) = bucketsSum t + l.length := by
  induction l generalizing t with
  | nil => simp
  | cons x xs ih => rw [List.foldl_cons, ih, bumpSemgrep_sum, List.length_cons]; omega

theorem foldl_bumpOsv_sum (l : List (Option String)) (t : ParsedFindings) :
    bucketsSum (l.foldl bumpOsv t) = bucketsSum t + l.length := by
  induction l generalizing t with
  | nil => simp
  | cons x xs ih => rw [List.foldl_cons, ih, bumpOsv_sum, List.length_cons]; omega

theorem foldl_bumpTrivy_sum (l : List (Option String)) (t : ParsedFindings) :
    bucketsSum (l.foldl bumpTrivy t) = bucketsSum t + l.length := by
  induction l generalizing t with
  | nil => simp
  | cons x xs ih => rw [List.foldl_cons, ih, bumpTrivy_sum, List.length_cons]; omega

theorem trivyLevel_sarifResult (o : Option String) :
    trivyLevel (sarifResult o) = .ok (sarifLower o) := by
  cases o <;> rfl

theorem mapExcept_trivyLevel (levels : List (Option String)) :
    mapExcept trivyLevel (levels.map sarifResult) = .ok (levels.map sarifLower) := by
  induction levels with
  | nil => rfl
  | cons x xs ih =>
    simp [mapExcept, trivyLevel_sarifResult x, ih]
    rfl

theorem trivyLevels_sarifOf (levels : List (Option String)) :
    trivyLevels (sarifOf levels) = .ok (levels.map sarifLower) := by
  exact mapExcept_trivyLevel levels

theorem foldl_bumpTrivy_counts (ls : List (Option String)) (t : ParsedFindings) :
    ls.foldl bumpTrivy t =
      { total := t.total,
        critical := t.critical + ls.countP (fun o => decide (o = some "error")),
        high := t.high + ls.countP (fun o => decide (o = some "warning")),
        medium := t.medium + ls.countP (fun o => decide (o = some "note")),
        low := t.low + ls.countP (fun o => decide (¬ (o = some "error" ∨ o = some "warning"
          ∨ o = some "note" ∨ o = some "info"))),
        info := t.info + ls.countP (fun o => decide (o = some "info")) } := by
  induction ls generalizing t with
  | nil => simp
  | cons x xs ih =>
    rw [List.foldl_cons, ih]
    simp only [List.countP_cons]
    unfold bumpTrivy
    split <;> simp_all <;> omega

/-! ## Claim theorems. -/

/-- C1: for every scan ledger and every AI priority list, the report's
final overall score equals `max (base - (15*#P0 + 10*#P1 + 5*#P2)) 0`,
the grade and the PASSED/FAILED status are derived from that penalized
total (PASSED iff it is at least 70); in particular a base score of 85
with priorities `[P0, P1]` yields final score 60, grade "Poor" and status
"FAILED". -/
theorem aiPenalty_applied_before_grade (results : List ScanResult)
    (ps : List PriorityLevel) :
    (generateReport results (some ps)).overallScore.total
        = max ((calculateScores results).total - aiPenalty ps) 0
    ∧ (generateReport results (some ps)).overallScore.grade
        = getGrade ((generateReport results (some ps)).overallScore.total)
    ∧ (generateReport results (some ps)).overallScore.status
        = (if (generateReport results (some ps)).overallScore.total ≥ 70
           then "PASSED" else "FAILED")
    ∧ ((calculateScores results).total = 85 → ps = [.P0, .P1] →
        (generateReport results (some ps)).overallScore.total = 60
        ∧ (generateReport results (some ps)).overallScore.grade = "Poor"
        ∧ (generateReport results (some ps)).overallScore.status = "FAILED") := by
  refine ⟨rfl, rfl, rfl, ?_⟩
  intro h hps
  subst hps
  have ht : (generateReport results (some [.P0, .P1])).overallScore.total
      = max ((calculateScores results).total - aiPenalty [.P0, .P1]) 0 := rfl
  rw [h] at ht
  have h60 : (generateReport results (some [.P0, .P1])).overallScore.total = 60 := by
    rw [ht]; decide
  refine ⟨h60, ?_, ?_⟩
  · have hg : (generateReport results (some [.P0, .P1])).overallScore.grade
        = getGrade ((generateReport results (some [.P0, .P1])).overallScore.total) := rfl
    rw [hg, h60]; decide
  · have hs : (generateReport results (some [.P0, .P1])).overallScore.status
        = (if (generateReport results (some [.P0, .P1])).overallScore.total ≥ 70
           then "PASSED" else "FAILED") := rfl
    rw [hs, h60]; decide

/-- Witness for C1: the concrete ledger `ledgerBase85` has base score 85,
and with priorities `[P0, P1]` the generated report carries final score 60,
grade "Poor" and status "FAILED". -/
theorem aiPenalty_applied_before_grade_witness :
    (calculateScores ledgerBase85).total = 85
    ∧ (generateReport ledgerBase85 (some [.P0, .P1])).overallScore.total = 60
    ∧ (generateReport ledgerBase85 (some [.P0, .P1])).overallScore.grade = "Poor"
    ∧ (generateReport ledgerBase85 (some [.P0, .P1])).overallScore.status = "FAILED" :=
  ⟨by decide,
   (aiPenalty_applied_before_grade ledgerBase85 [.P0, .P1]).2.2.2 (by decide) rfl⟩

/-- C2: for every ledger and every AI priority list, each category score
lies between 0 and its fixed maximum (25/20/25/20/10), and the overall
score lies in [0, 100] both before and after the AI penalty; duplicated
successful dependency outcomes are clamped at 25. -/
theorem score_bounds_invariant (results : List ScanResult) (ps : List PriorityLevel) :
    (0 ≤ (calculateScores results).categories.staticAnalysis.score
      ∧ (calculateScores results).categories.staticAnalysis.score ≤ 25
      ∧ (calculateScores results).categories.staticAnalysis.max = 25)
    ∧ (0 ≤ (calculateScores results).categories.secretDetection.score
      ∧ (calculateScores results).categories.secretDetection.score ≤ 20
      ∧ (calculateScores results).categories.secretDetection.max = 20)
    ∧ (0 ≤ (calculateScores results).categories.dependencySecurity.score
      ∧ (calculateScores results).categories.dependencySecurity.score ≤ 25
      ∧ (calculateScores results).categories.dependencySecurity.max = 25)
    ∧ (0 ≤ (calculateScores results).categories.webSecurity.score
      ∧ (calculateScores results).categories.webSecurity.score ≤ 20
      ∧ (calculateScores results).categories.webSecurity.max = 20)
    ∧ (0 ≤ (calculateScores results).categories.toolCoverage.score
      ∧ (calculateScores results).categories.toolCoverage.score ≤ 10
      ∧ (calculateScores results).categories.toolCoverage.max = 10)
    ∧ (0 ≤ (calculateScores results).total ∧ (calculateScores results).total ≤ 100)
    ∧ (0 ≤ (generateReport results (some ps)).overallScore.total
      ∧ (generateReport results (some ps)).overallScore.total ≤ 100)
    ∧ (calculateScores
        [{ tool := "trivy", status := .SUCCESS, findings := 0 },
         { tool := "trivy", status := .SUCCESS, findings := 0 },
         { tool := "trivy", status := .SUCCESS, findings := 0 }]
       ).categories.dependencySecurity.score = 25 := by
  have hwf : CatsWF (results.foldl scanStep initCategories) :=
    scanFold_wf results initCategories initCategories_wf
  have e1 : (calculateScores results).categories.staticAnalysis
      = clampCategory ((results.foldl scanStep initCategories).staticAnalysis) := rfl
  have e2 : (calculateScores results).categories.secretDetection
      = clampCategory ((results.foldl scanStep initCategories).secretDetection) := rfl
  have e3 : (calculateScores results).categories.dependencySecurity
      = clampCategory ((results.foldl scanStep initCategories).dependencySecurity) := rfl
  have e4 : (calculateScores results).categories.webSecurity
      = clampCategory ((results.foldl scanStep initCategories).webSecurity) := rfl
  have e5 : (calculateScores results).categories.toolCoverage
      = clampCategory (coverageCategory
          ((results.foldl scanStep initCategories).toolCoverage)
          (results.countP (fun r => decide (r.status = ScanStatus.SUCCESS)))
          results.length) := rfl
  have b1 := clampCategory_bounds _ 25 hwf.1 (by decide)
  have b2 := clampCategory_bounds _ 20 hwf.2.1 (by decide)
  have b3 := clampCategory_bounds _ 25 hwf.2.2.1 (by decide)
  have b4 := clampCategory_bounds _ 20 hwf.2.2.2.1 (by decide)
  have b5 := clampCategory_bounds _ 10
    (coverageCategory_wf ((results.foldl scanStep initCategories).toolCoverage)
      (results.countP (fun r => decide (r.status = ScanStatus.SUCCESS)))
      results.length hwf.2.2.2.2) (by decide)
  have ht2 : (calculateScores results).total = min 100
      ((calculateScores results).categories.staticAnalysis.score
        + (calculateScores results).categories.secretDetection.score
        + (calculateScores results).categories.dependencySecurity.score
        + (calculateScores results).categories.webSecurity.score
        + (calculateScores results).categories.toolCoverage.score) := rfl
  have hpen : (generateReport results (some ps)).overallScore.total
      = max ((calculateScores results).total - aiPenalty ps) 0 := rfl
  have hp := aiPenalty_nonneg ps
  refine ⟨⟨?_, ?_, ?_⟩, ⟨?_, ?_, ?_⟩, ⟨?_, ?_, ?_⟩, ⟨?_, ?_, ?_⟩, ⟨?_, ?_, ?_⟩,
    ⟨?_, ?_⟩, ⟨?_, ?_⟩, ?_⟩
  · rw [e1]; exact b1.1
  · rw [e1]; exact b1.2.1
  · rw [e1]; exact b1.2.2
  · rw [e2]; exact b2.1
  · rw [e2]; exact b2.2.1
  · rw [e2]; exact b2.2.2
  · rw [e3]; exact b3.1
  · rw [e3]; exact b3.2.1
  · rw [e3]; exact b3.2.2
  · rw [e4]; exact b4.1
  · rw [e4]; exact b4.2.1
  · rw [e4]; exact b4.2.2
  · rw [e5]; exact b5.1
  · rw [e5]; exact b5.2.1
  · rw [e5]; exact b5.2.2
  · rw [ht2, e1, e2, e3, e4, e5]
    have := b1.1; have := b2.1; have := b3.1; have := b4.1; have := b5.1
    omega
  · rw [ht2, e1, e2, e3, e4, e5]
    omega
  · rw [hpen, ht2, e1, e2, e3, e4, e5]
    have := b1.1; have := b2.1; have := b3.1; have := b4.1; have := b5.1
    omega
  · rw [hpen, ht2, e1, e2, e3, e4, e5]
    have := b1.2.1; have := b2.2.1; have := b3.2.1; have := b4.2.1; have := b5.2.1
    have := b1.1; have := b2.1; have := b3.1; have := b4.1; have := b5.1
    omega
  · decide

/-- C3: Scenario B — the ledger with semgrep FAILED, gitleaks SUCCESS,
trivy SUCCESS, osv-scanner SKIPPED and zap SKIPPED (2 of 5 successful,
40% coverage) scores staticAnalysis 0, secretDetection 20,
dependencySecurity 12, webSecurity 0, toolCoverage 6, overall 38, which is
below 70, and the report status is FAILED. -/
theorem scenarioB_forty_percent_coverage :
    (calculateScores ledgerScenarioB).categories.staticAnalysis.score = 0
    ∧ (calculateScores ledgerScenarioB).categories.secretDetection.score = 20
    ∧ (calculateScores ledgerScenarioB).categories.dependencySecurity.score = 12
    ∧ (calculateScores ledgerScenarioB).categories.webSecurity.score = 0
    ∧ (calculateScores ledgerScenarioB).categories.toolCoverage.score = 6
    ∧ (calculateScores ledgerScenarioB).total = 38
    ∧ (calculateScores ledgerScenarioB).total < 70
    ∧ (generateReport ledgerScenarioB none).overallScore.status = "FAILED" := by
  decide

/-- C4: Scenario A — the ledger with all five tools SUCCESS and zero
findings, and no AI priority list, produces all five categories at their
maxima with status EXCELLENT, overall score 100, grade "Excellent" and
status PASSED. -/
theorem scenarioA_perfect_run :
    (calculateScores ledgerScenarioA).categories =
      { staticAnalysis := ⟨25, 25, "EXCELLENT"⟩
        secretDetection := ⟨20, 20, "EXCELLENT"⟩
        dependencySecurity := ⟨25, 25, "EXCELLENT"⟩
        webSecurity := ⟨20, 20, "EXCELLENT"⟩
        toolCoverage := ⟨10, 10, "EXCELLENT"⟩ }
    ∧ (generateReport ledgerScenarioA none).overallScore =
      { total := 100, maxPossible := 100, grade := "Excellent", status := "PASSED" } := by
  decide

/-- Counterexample to C5: the ledger `[trivy SUCCESS, trivy FAILED]` does
not score `dependencySecurity` as if trivy failed — the duplicate ledger
scores 12 while the trivy-failed ledger scores 0. -/
theorem duplicate_trivy_counterexample :
    (calculateScores
      [{ tool := "trivy", status := .SUCCESS, findings := 0 },
       { tool := "trivy", status := .FAILED, findings := 0, error := some "exit 1" }]
     ).categories.dependencySecurity.score = 12
    ∧ (calculateScores
        [{ tool := "trivy", status := .FAILED, findings := 0, error := some "exit 1" }]
       ).categories.dependencySecurity.score = 0
    ∧ (12 : Int) ≠ 0 := by
  decide

/-- C5 (amended): the scoring engine does not resolve duplicates to the
latest occurrence — it iterates over every outcome, and every SUCCESS
occurrence contributes credit regardless of position:
`dependencySecurity = min (12 * #trivy-successes + 13 * #osv-successes) 25`;
in particular `[trivy SUCCESS, trivy FAILED]` scores 12, as if trivy had
succeeded. -/
theorem dependency_credit_all_occurrences (results : List ScanResult) :
    (calculateScores results).categories.dependencySecurity.score
      = min (12 * countToolSuccess "trivy" results
              + 13 * countToolSuccess "osv-scanner" results) 25
    ∧ (calculateScores
        [{ tool := "trivy", status := .SUCCESS, findings := 0 },
         { tool := "trivy", status := .FAILED, findings := 0, error := some "exit 1" }]
       ).categories.dependencySecurity.score = 12 := by
  constructor
  · have h : (calculateScores results).categories.dependencySecurity
        = clampCategory ((results.foldl scanStep initCategories).dependencySecurity) := rfl
    rw [h]
    have hd := scanFold_dep results initCategories
    unfold clampCategory
    simp only [hd.1, hd.2]
    have h0 : initCategories.dependencySecurity.score = 0 := rfl
    have hm : initCategories.dependencySecurity.max = 25 := rfl
    rw [h0, hm]
    simp
  · decide

/-- Counterexample to C6: in `comprehensiveVibe`, an attempted web-security
scan that fails never reaches the ledger (no zap entry at all), and in
`scanAll` a failed dependency scan leaves no osv-scanner entry — tools are
silently omitted. -/
theorem ledger_omission_counterexample :
    ((comprehensiveLedger true true true (some "http://localhost:3000") false 0 0 0 0).filter
      (fun r => r.tool == "zap") = [])
    ∧ ((scanAllLedger true false true (some "http://localhost:3000") true 0 0 0 0
        "a" "b" "c" "d").filter (fun r => r.tool == "osv-scanner") = []) := by
  decide

/-- C6 (amended): in `scanAll`, a failed semgrep or gitleaks step appears
as a FAILED outcome carrying its error message and a bypassed web scan
appears as a zap SKIPPED outcome, but a failed dependency step records
only trivy (osv-scanner is silently omitted); in `comprehensiveVibe` only
successful steps are appended — failed and bypassed tools are silently
omitted from the ledger. -/
theorem ledger_visibility_amended (semOk depOk secOk zapOk : Bool)
    (appUrl : Option String) (semN trivyN osvN gitN : Nat)
    (semErr depErr secErr zapErr : String) :
    (semOk = false →
      ({ tool := "semgrep", status := .FAILED, findings := 0, error := some semErr } : ScanResult)
        ∈ scanAllLedger semOk depOk secOk appUrl zapOk semN trivyN osvN gitN semErr depErr secErr zapErr)
    ∧ (secOk = false →
      ({ tool := "gitleaks", status := .FAILED, findings := 0, error := some secErr } : ScanResult)
        ∈ scanAllLedger semOk depOk secOk appUrl zapOk semN trivyN osvN gitN semErr depErr secErr zapErr)
    ∧ (appUrl = none →
      ({ tool := "zap", status := .SKIPPED, findings := 0, error := some "No app URL configured" } : ScanResult)
        ∈ scanAllLedger semOk depOk secOk appUrl zapOk semN trivyN osvN gitN semErr depErr secErr zapErr)
    ∧ (depOk = false →
      ({ tool := "trivy", status := .FAILED, findings := 0, error := some depErr } : ScanResult)
        ∈ scanAllLedger semOk depOk secOk appUrl zapOk semN trivyN osvN gitN semErr depErr secErr zapErr
      ∧ ∀ r ∈ scanAllLedger semOk depOk secOk appUrl zapOk semN trivyN osvN gitN semErr depErr secErr zapErr,
          r.tool ≠ "osv-scanner")
    ∧ (∀ r ∈ comprehensiveLedger semOk depOk secOk appUrl zapOk semN trivyN osvN gitN,
        r.status = ScanStatus.SUCCESS)
    ∧ (zapOk = false →
      ∀ r ∈ comprehensiveLedger semOk depOk secOk appUrl zapOk semN trivyN osvN gitN,
        r.tool ≠ "zap") := by
  cases semOk <;> cases depOk <;> cases secOk <;> cases zapOk <;> cases appUrl <;>
    simp [scanAllLedger, comprehensiveLedger]

/-- Witness for C6 (amended), at a run where semgrep and the dependency
scan fail, gitleaks succeeds and no app URL is configured. -/
theorem ledger_visibility_amended_witness :
    (({ tool := "semgrep", status := .FAILED, findings := 0, error := some "spawn semgrep ENOENT" } : ScanResult)
      ∈ scanAllLedger false false true none true 0 0 0 0 "spawn semgrep ENOENT" "trivy failed" "x" "y")
    ∧ (({ tool := "zap", status := .SKIPPED, findings := 0, error := some "No app URL configured" } : ScanResult)
      ∈ scanAllLedger false false true none true 0 0 0 0 "spawn semgrep ENOENT" "trivy failed" "x" "y")
    ∧ (∀ r ∈ scanAllLedger false false true none true 0 0 0 0 "spawn semgrep ENOENT" "trivy failed" "x" "y",
        r.tool ≠ "osv-scanner")
    ∧ (∀ r ∈ comprehensiveLedger false false true none true 0 0 0 0,
        r.status = ScanStatus.SUCCESS) := by
  refine ⟨?_, ?_, ?_, ?_⟩
  · exact (ledger_visibility_amended false false true true none 0 0 0 0
      "spawn semgrep ENOENT" "trivy failed" "x" "y").1 rfl
  · exact (ledger_visibility_amended false false true true none 0 0 0 0
      "spawn semgrep ENOENT" "trivy failed" "x" "y").2.2.1 rfl
  · exact ((ledger_visibility_amended false false true true none 0 0 0 0
      "spawn semgrep ENOENT" "trivy failed" "x" "y").2.2.2.1 rfl).2
  · exact (ledger_visibility_amended false false true true none 0 0 0 0
      "spawn semgrep ENOENT" "trivy failed" "x" "y").2.2.2.2.1

/-- C7: for every state of an artifact file (absent, invalid JSON, or any
JSON value), all four normalizers return a tally whose total matches the
sum of its severity buckets (the embedding is total — every throwing path
of the source lands in the catch), and an absent or invalid file yields
exactly the all-zero tally. -/
theorem normalizers_never_throw (fs : FileState) :
    (tallyWF (parseSemgrepResults fs) ∧ tallyWF (parseGitleaksResults fs)
      ∧ tallyWF (parseOsvResults fs) ∧ tallyWF (parseTrivyResults fs))
    ∧ ((fs = FileState.absent ∨ fs = FileState.invalid) →
        parseSemgrepResults fs = zeroTally ∧ parseGitleaksResults fs = zeroTally
        ∧ parseOsvResults fs = zeroTally ∧ parseTrivyResults fs = zeroTally) := by
  constructor
  · cases fs with
    | absent => exact ⟨rfl, rfl, rfl, rfl⟩
    | invalid => exact ⟨rfl, rfl, rfl, rfl⟩
    | json data =>
      refine ⟨?_, ?_, ?_, ?_⟩
      · cases h : semgrepSevs data with
        | error e => simp [parseSemgrepResults, h]; rfl
        | ok sevs =>
          simp only [parseSemgrepResults, h]
          show sevs.length = bucketsSum (sevs.foldl bumpSemgrep zeroTally)
          rw [foldl_bumpSemgrep_sum]
          simp [bucketsSum, zeroTally]
      · cases data <;> simp [tallyWF, parseGitleaksResults, zeroTally]
      · cases h : osvSevs data with
        | error e => simp [parseOsvResults, h]; rfl
        | ok sevs =>
          simp only [parseOsvResults, h]
          show sevs.length = bucketsSum (sevs.foldl bumpOsv zeroTally)
          rw [foldl_bumpOsv_sum]
          simp [bucketsSum, zeroTally]
      · cases h : trivyLevels data with
        | error e => simp [parseTrivyResults, h]; rfl
        | ok lvls =>
          simp only [parseTrivyResults, h]
          show lvls.length = bucketsSum (lvls.foldl bumpTrivy zeroTally)
          rw [foldl_bumpTrivy_sum]
          simp [bucketsSum, zeroTally]
  · rintro (rfl | rfl) <;> exact ⟨rfl, rfl, rfl, rfl⟩

/-- Witness for C7 at the absent artifact state. -/
theorem normalizers_never_throw_witness :
    (tallyWF (parseSemgrepResults FileState.absent)
      ∧ tallyWF (parseGitleaksResults FileState.absent)
      ∧ tallyWF (parseOsvResults FileState.absent)
      ∧ tallyWF (parseTrivyResults FileState.absent))
    ∧ (parseSemgrepResults FileState.absent = zeroTally
      ∧ parseGitleaksResults FileState.absent = zeroTally
      ∧ parseOsvResults FileState.absent = zeroTally
      ∧ parseTrivyResults FileState.absent = zeroTally) :=
  ⟨(normalizers_never_throw FileState.absent).1,
   (normalizers_never_throw FileState.absent).2 (Or.inl rfl)⟩

/-- C8: the SARIF normalizer counts each entry of `runs[0].results` by its
(lowercased) level — error to critical, warning to high, note to medium,
info to info, anything else or missing to low — with total the number of
entries; one error-level plus one note-level entry give the tally
`{total 2, critical 1, high 0, medium 1, low 0, info 0}`. -/
theorem sarif_level_counts (levels : List (Option String)) :
    parseTrivyResults (.json (sarifOf levels)) =
      { total := levels.length,
        critical := levels.countP (fun o => decide (sarifLower o = some "error")),
        high := levels.countP (fun o => decide (sarifLower o = some "warning")),
        medium := levels.countP (fun o => decide (sarifLower o = some "note")),
        low := levels.countP (fun o => decide (¬ (sarifLower o = some "error"
          ∨ sarifLower o = some "warning" ∨ sarifLower o = some "note"
          ∨ sarifLower o = some "info"))),
        info := levels.countP (fun o => decide (sarifLower o = some "info")) }
    ∧ parseTrivyResults (.json (sarifOf [some "error", some "note"])) =
        ⟨2, 1, 0, 1, 0, 0⟩ := by
  constructor
  · simp only [parseTrivyResults, trivyLevels_sarifOf]
    rw [foldl_bumpTrivy_counts]
    simp [zeroTally, List.countP_map, Function.comp_def]
  · decide

/-- C9: the secret-detection normalizer maps a findings array of length n
to exactly `{total n, critical 0, high n, medium 0, low 0, info 0}` —
every finding counted as high; in particular 3 findings give
`{total 3, critical 0, high 3, medium 0, low 0, info 0}`. -/
theorem gitleaks_all_high (xs : List Json) :
    parseGitleaksResults (.json (.arr xs)) =
      { total := xs.length, critical := 0, high := xs.length
        medium := 0, low := 0, info := 0 }
    ∧ parseGitleaksResults (.json (.arr [.obj [], .obj [], .obj []])) =
        ⟨3, 0, 3, 0, 0, 0⟩ := by
  exact ⟨rfl, by decide⟩

/-- C10: on the empty ledger the scoring engine returns a defined result:
all coverage threshold comparisons on the NaN percentage are false, every
category scores 0 (toolCoverage with status FAILED), and the report has
overall score 0, grade "Critical" and status FAILED. -/
theorem empty_ledger_defined :
    covAtLeast 0 0 80 = false ∧ covAtLeast 0 0 60 = false ∧ covAtLeast 0 0 40 = false
    ∧ (calculateScores []).categories =
      { staticAnalysis := ⟨0, 25, "FAILED"⟩
        secretDetection := ⟨0, 20, "FAILED"⟩
        dependencySecurity := ⟨0, 25, "FAILED"⟩
        webSecurity := ⟨0, 20, "FAILED"⟩
        toolCoverage := ⟨0, 10, "FAILED"⟩ }
    ∧ (calculateScores []).total = 0
    ∧ (generateReport [] none).overallScore =
      { total := 0, maxPossible := 100, grade := "Critical", status := "FAILED" } := by
  decide
